import Mathlib

/-
Shallow embedding of src/rkt/api_readonly_service.go, the read-only API
service of the rkt container runtime.  Each definition below is translated
from the Go source; line numbers in the comments refer to
src/rkt/api_readonly_service.go.  External collaborators (the pod-store
handle, the image store, json decoding, the cgroup resolver) are modelled
as explicit data and function parameters, following the collaborator
contracts described by the specification.
-/

namespace Rkt

/-- Key-value pair of the v1alpha API (v1alpha.KeyValue). -/
structure KeyValue where
  key : String
  value : String
  deriving DecidableEq, Repr

/-- Lifecycle states of the public v1alpha.PodState enum. -/
inductive PodState where
  | UNDEFINED
  | EMBRYO
  | PREPARING
  | ABORTED_PREPARE
  | PREPARED
  | RUNNING
  | DELETING
  | EXITED
  | GARBAGE
  deriving DecidableEq, Repr

/-- States of the public v1alpha.AppState enum. -/
inductive AppState where
  | UNDEFINED
  | RUNNING
  | EXITED
  deriving DecidableEq, Repr

/-- Image types of the v1alpha API; only the appc type is produced here. -/
inductive ImageType where
  | UNDEFINED
  | APPC
  deriving DecidableEq, Repr

/-- Modelled from the spec: the appc schema version string
(schema.AppContainerVersion.String()), an external constant of the vendored
appc library; its exact value is irrelevant to every claim. -/
def AppContainerVersion : String := "0.8.11"

/-- v1alpha.ImageFormat; the field defaults are the Go zero values. -/
structure ImageFormat where
  type : ImageType := ImageType.UNDEFINED
  version : String := ""
  deriving DecidableEq, Repr

/-- v1alpha.Image; the field defaults are the Go zero values (a nil
manifest byte slice is none). -/
structure Image where
  baseFormat : ImageFormat := {}
  id : String := ""
  name : String := ""
  version : String := ""
  importTimestamp : Int := 0
  manifest : Option String := none
  size : Int := 0
  annotations : List KeyValue := []
  labels : List KeyValue := []
  deriving DecidableEq, Repr

/-- v1alpha.App; the field defaults are the Go zero values. -/
structure App where
  name : String := ""
  image : Image := {}
  state : AppState := AppState.UNDEFINED
  exitCode : Int := 0
  annotations : List KeyValue := []
  deriving DecidableEq, Repr

/-- v1alpha.Network. -/
structure Network where
  name : String := ""
  ipv4 : String := ""
  deriving DecidableEq, Repr

/-- v1alpha.Pod; the field defaults are the Go zero values (nil manifest
bytes are none, raw bytes are modelled as a String). -/
structure Pod where
  id : String := ""
  pid : Int := 0
  state : PodState := PodState.UNDEFINED
  apps : List App := []
  networks : List Network := []
  annotations : List KeyValue := []
  cgroup : String := ""
  createdAt : Int := 0
  startedAt : Int := 0
  gcMarkedAt : Int := 0
  manifest : Option String := none
  deriving DecidableEq, Repr

/-- v1alpha.PodFilter; every field is an optional criterion, the empty list
means the criterion is absent. -/
structure PodFilter where
  ids : List String := []
  states : List PodState := []
  appNames : List String := []
  imageIds : List String := []
  networkNames : List String := []
  annotations : List KeyValue := []
  cgroups : List String := []
  podSubCgroups : List String := []
  deriving DecidableEq, Repr

/-- Lines 68-75: findInKeyValues returns the value of the first entry with
the given key, together with whether such an entry exists. -/
def findInKeyValues (kvs : List KeyValue) (key : String) : String × Bool :=
  match kvs with
  | [] => ("", false)
  | kv :: rest => if kv.key = key then (kv.value, true) else findInKeyValues rest key

/-- Lines 77-87: containsAllKeyValues returns true when every required
key-value pair is met by the first entry of actualKVs with the same key. -/
def containsAllKeyValues (actualKVs requiredKVs : List KeyValue) : Bool :=
  requiredKVs.all fun requiredKV =>
    let r := findInKeyValues actualKVs requiredKV.key
    r.2 && (r.1 == requiredKV.value)

/-- Lines 177-192: the sub-cgroup criterion block of satisfiesPodFilter.
Go sets matched when the pod cgroup is non-empty and is a string prefix
(strings.HasPrefix(candidate, pod.Cgroup)) of some candidate path of the
filter. -/
def podSubCgroupMatched (pod : Pod) (filter : PodFilter) : Bool :=
  if pod.cgroup != "" then
    filter.podSubCgroups.any fun cg => pod.cgroup.isPrefixOf cg
  else
    false

/-- Lines 104-195: satisfiesPodFilter is a conjunction over the filter
criteria that are present; each block returns false when a present
criterion fails.  The membership helpers of pkg/set (NewString, Has,
HasAll) are modelled as list membership. -/
def satisfiesPodFilter (pod : Pod) (filter : PodFilter) : Bool :=
  if filter.ids.length > 0 && !(filter.ids.contains pod.id) then false
  else if filter.states.length > 0 && !(filter.states.contains pod.state) then false
  else if filter.appNames.length > 0 &&
      !(filter.appNames.all fun n => (pod.apps.map fun a => a.name).contains n) then false
  else if filter.imageIds.length > 0 &&
      !(filter.imageIds.all fun i => (pod.apps.map fun a => a.image.id).contains i) then false
  else if filter.networkNames.length > 0 &&
      !(filter.networkNames.all fun n => (pod.networks.map fun x => x.name).contains n) then false
  else if filter.annotations.length > 0 &&
      !(containsAllKeyValues pod.annotations filter.annotations) then false
  else if filter.cgroups.length > 0 && !(filter.cgroups.contains pod.cgroup) then false
  else if filter.podSubCgroups.length > 0 && !(podSubCgroupMatched pod filter) then false
  else true

/-- Lines 197-211: satisfiesAnyPodFilters returns true when there is no
filter at all, otherwise when some filter of the list is satisfied. -/
def satisfiesAnyPodFilters (pod : Pod) (filters : List PodFilter) : Bool :=
  if filters.length = 0 then
    true
  else
    filters.any fun filter => satisfiesPodFilter pod filter

/-- Name-value pair of the vendored appc schema (types.Annotation and
types.Label are both name-value pairs). -/
structure NameValue where
  name : String
  value : String
  deriving DecidableEq, Repr

/-- Lines 536-546: convertAnnotationsToKeyValue. -/
def convertAnnotationsToKeyValue (as : List NameValue) : List KeyValue :=
  as.map fun a => { key := a.name, value := a.value }

/-- Lines 548-558: convertLabelsToKeyValue. -/
def convertLabelsToKeyValue (ls : List NameValue) : List KeyValue :=
  ls.map fun l => { key := l.name, value := l.value }

/-- Modelled from the spec: the label lookup Labels.Get of the vendored
appc schema, used for the version label; it returns the value of the first
label with the given name together with whether one exists. -/
def labelsGet (ls : List NameValue) (name : String) : String × Bool :=
  match ls with
  | [] => ("", false)
  | l :: rest => if l.name = name then (l.value, true) else labelsGet rest name

/-- The image reference of an app entry of the appc pod manifest
(schema.RuntimeApp.Image); only the ID is consumed here. -/
structure AppImageRef where
  id : String
  deriving DecidableEq, Repr

/-- An app entry of the appc pod manifest (schema.RuntimeApp). -/
structure PodManifestApp where
  name : String
  image : AppImageRef
  annotations : List NameValue
  deriving DecidableEq, Repr

/-- The appc pod manifest (schema.PodManifest); only the fields consumed by
this service are modelled. -/
structure PodManifest where
  apps : List PodManifestApp
  annotations : List NameValue
  deriving DecidableEq, Repr

/-- The appc image manifest (schema.ImageManifest); only the fields
consumed by this service are modelled. -/
structure ImageManifest where
  name : String
  labels : List NameValue
  annotations : List NameValue
  deriving DecidableEq, Repr

/-- A Go time.Time value as consumed by getBasicPod: its IsZero test and
its UnixNano value. -/
structure GoTime where
  isZero : Bool
  unixNano : Int
  deriving DecidableEq, Repr

/-- A network record attached to a pod (netinfo.NetInfo); the name and the
rendered IPv4 address are consumed. -/
structure NetInfo where
  netName : String
  ip : String
  deriving DecidableEq, Repr

/-- Failure kinds of a file read: a missing file (os.IsNotExist) or any
other error. -/
inductive FileErr where
  | notExist
  | other
  deriving DecidableEq, Repr

/-- Modelled from the spec: the internal lifecycle enum of the pod store.
Unrecognized stands for every value outside the eight named states and is
taken by the default branch of the switch in getBasicPod (lines 302-304). -/
inductive InternalPodState where
  | Embryo
  | Preparing
  | AbortedPrepare
  | Prepared
  | Running
  | Deleting
  | Exited
  | Garbage
  | Unrecognized
  deriving DecidableEq, Repr

/-- Modelled from the spec: the pod-store handle collaborator.  Each field
is the observable result of one accessor of the Go pod handle; a none
result models a non-nil error (which this service only logs).  readFile
returns the raw bytes of a file of the pod directory (bytes are modelled
as a String). -/
structure PodHandle where
  uuid : String
  readFile : String → Option String
  getState : InternalPodState
  nets : List NetInfo
  getCreationTime : Option GoTime
  getStartTime : Option GoTime
  getGCMarkedTime : Option GoTime
  getPID : Option Int
  getContainerPID1 : Option Int
  isRunning : Bool
  afterRun : Bool
  getAppImageManifest : String → Option ImageManifest
  getStatusDir : Option String
  readIntFromFile : String → Int × Option FileErr

/-- Modelled from the spec: the process-wide external collaborators of the
pod view assembler: json decoding of a pod manifest (encoding/json), and
the cgroup resolver (cgroup.GetCgroupPathByPid for the name=systemd
controller).  The machined registration wait (lines 337-341, 364-381) only
logs its failure and never changes the produced snapshot, so it carries no
field here. -/
structure Env where
  unmarshalPodManifest : String → Option PodManifest
  cgroupPathByPid : Int → Option String

/-- Modelled from the spec: the image store collaborator
(imagestore.Store).  ResolveKey is a Go two-value return: the string
result together with whether resolution succeeded (a nil error); the Go
code consumes the string result regardless of the error.
GetImageManifestJSON returns the stored manifest bytes or fails. -/
structure Store where
  resolveKey : String → String × Bool
  getImageManifestJSON : String → Option String

/-- Lines 213-228: getPodManifest reads the file named pod and decodes it;
it fails (logging) when either step fails, and otherwise returns the
decoded manifest together with the raw bytes. -/
def getPodManifest (env : Env) (p : PodHandle) : Option (PodManifest × String) :=
  match p.readFile "pod" with
  | none => none
  | some data =>
    match env.unmarshalPodManifest data with
    | none => none
    | some manifest => some (manifest, data)

/-- Lines 230-253: getApplist builds one v1alpha.App per manifest app with
only the image format, image id, name and annotations set. -/
def getApplist (manifest : PodManifest) : List App :=
  manifest.apps.map fun app =>
    { name := app.name
      image := { baseFormat := { type := ImageType.APPC, version := AppContainerVersion }
                 id := app.image.id }
      annotations := convertAnnotationsToKeyValue app.annotations }

/-- Lines 255-266: getNetworks. -/
def getNetworks (p : PodHandle) : List Network :=
  p.nets.map fun n => { name := n.netName, ipv4 := n.ip }

/-- Go strings.TrimSuffix: drop the given closing segment when present. -/
def trimSuffix (s sfx : String) : String :=
  if s.endsWith sfx then s.dropRight sfx.length else s

/-- Lines 307-312: set CreatedAt from getCreationTime when it succeeds and
the time is non-zero. -/
def setCreatedAt (p : PodHandle) (pod : Pod) : Pod :=
  match p.getCreationTime with
  | none => pod
  | some t => if !t.isZero then { pod with createdAt := t.unixNano } else pod

/-- Lines 314-320: set StartedAt from getStartTime when it succeeds and the
time is non-zero. -/
def setStartedAt (p : PodHandle) (pod : Pod) : Pod :=
  match p.getStartTime with
  | none => pod
  | some t => if !t.isZero then { pod with startedAt := t.unixNano } else pod

/-- Lines 322-327: set GcMarkedAt from getGCMarkedTime when it succeeds and
the time is non-zero. -/
def setGcMarkedAt (p : PodHandle) (pod : Pod) : Pod :=
  match p.getGCMarkedTime with
  | none => pod
  | some t => if !t.isZero then { pod with gcMarkedAt := t.unixNano } else pod

/-- Lines 329-334: set Pid from getPID when it succeeds (failure leaves the
initial -1). -/
def setPid (p : PodHandle) (pod : Pod) : Pod :=
  match p.getPID with
  | none => pod
  | some pid => { pod with pid := pid }

/-- Lines 336-359: for a running pod, resolve the cgroup path of the
primary process and trim the implicit init.scope segment; every failure on
the way is logged and leaves the cgroup empty.  The machined registration
wait before the resolution only logs its failure. -/
def setCgroup (env : Env) (p : PodHandle) (pod : Pod) : Pod :=
  if pod.state = PodState.RUNNING then
    match p.getContainerPID1 with
    | none => pod
    | some pid1 =>
      match env.cgroupPathByPid pid1 with
      | none => pod
      | some cg => { pod with cgroup := trimSuffix cg "/init.scope" }
  else
    pod

/-- Lines 307-361: the best-effort enrichment of getBasicPod that runs for
every state other than Embryo and Undefined. -/
def getBasicPodRest (env : Env) (p : PodHandle) (pod : Pod) : Pod :=
  setCgroup env p (setPid p (setGcMarkedAt p (setStartedAt p (setCreatedAt p pod))))

/-- Lines 268-362: getBasicPod.  The manifest is read first (on success it
populates the manifest bytes, annotations and apps; on failure they stay
empty); then the internal state is mapped to the public enum, with an early
return for Embryo and for unrecognized states, and the remaining states run
the best-effort enrichment.  A running pod additionally gets its networks. -/
def getBasicPod (env : Env) (p : PodHandle) : Pod :=
  let pod0 : Pod := { id := p.uuid, pid := -1 }
  let pod :=
    match getPodManifest env p with
    | none => pod0
    | some (manifest, data) =>
      { pod0 with
        manifest := some data
        annotations := convertAnnotationsToKeyValue manifest.annotations
        apps := getApplist manifest }
  match p.getState with
  | InternalPodState.Embryo => { pod with state := PodState.EMBRYO }
  | InternalPodState.Preparing => getBasicPodRest env p { pod with state := PodState.PREPARING }
  | InternalPodState.AbortedPrepare =>
    getBasicPodRest env p { pod with state := PodState.ABORTED_PREPARE }
  | InternalPodState.Prepared => getBasicPodRest env p { pod with state := PodState.PREPARED }
  | InternalPodState.Running =>
    getBasicPodRest env p { pod with state := PodState.RUNNING, networks := getNetworks p }
  | InternalPodState.Deleting => getBasicPodRest env p { pod with state := PodState.DELETING }
  | InternalPodState.Exited => getBasicPodRest env p { pod with state := PodState.EXITED }
  | InternalPodState.Garbage => getBasicPodRest env p { pod with state := PodState.GARBAGE }
  | InternalPodState.Unrecognized => { pod with state := PodState.UNDEFINED }

/-- Lines 428-458: the image part of the per-app loop body of fillAppInfo.
The image is rebuilt with the appc format and the string result of
ResolveKey (used even when resolution failed, which is only logged), and
the name and version are added when the per-app image manifest is
obtainable, the version defaulting to latest when the manifest has no
version label. -/
def fillAppImage (store : Store) (p : PodHandle) (app : App) : Image :=
  let fullImageID := (store.resolveKey app.image.id).1
  let img : Image :=
    { baseFormat := { type := ImageType.APPC, version := AppContainerVersion }
      id := fullImageID }
  match p.getAppImageManifest app.name with
  | none => img
  | some im =>
    { img with
      name := im.name
      version := if (labelsGet im.labels "version").2 then (labelsGet im.labels "version").1
                 else "latest" }

/-- Lines 415-474: the per-app loop body of fillAppInfo.  The app state is
derived from the pod liveness predicates; the image is rebuilt; when the
pod is running or past running, the numeric exit status is read from the
per-app file of the status directory (a missing file is not an error and
any other failure is only logged).  filepath.Join is modelled as plain
path concatenation. -/
def fillApp (store : Store) (p : PodHandle) (app : App) : App :=
  let base :=
    if p.isRunning then { app with state := AppState.RUNNING }
    else if p.afterRun then { app with state := AppState.EXITED }
    else { app with state := AppState.UNDEFINED }
  let readStatus := p.isRunning || p.afterRun
  let withImage := { base with image := fillAppImage store p app }
  if readStatus then
    match p.getStatusDir with
    | none => withImage
    | some statusDir =>
      match p.readIntFromFile (statusDir ++ "/" ++ app.name) with
      | (value, none) => { withImage with exitCode := value }
      | (value, some FileErr.notExist) => { withImage with exitCode := value }
      | (_, some FileErr.other) => withImage
  else
    withImage

/-- Lines 406-475: fillAppInfo enriches every app of the snapshot, doing
nothing when the pod state is Undefined or Embryo. -/
def fillAppInfo (store : Store) (p : PodHandle) (v1pod : Pod) : Pod :=
  match v1pod.state with
  | PodState.UNDEFINED => v1pod
  | PodState.EMBRYO => v1pod
  | _ => { v1pod with apps := v1pod.apps.map (fillApp store p) }

/-- v1alpha.ListPodsRequest. -/
structure ListPodsRequest where
  filters : List PodFilter := []
  detail : Bool := false

/-- Lines 385-398: the body of the walkPods callback of ListPods: assemble
the basic snapshot, drop the pod unless it satisfies some filter, then
either run the detail enrichment or clear the manifest bytes. -/
def listPodsVisit (env : Env) (store : Store) (request : ListPodsRequest)
    (p : PodHandle) : Option Pod :=
  let pod := getBasicPod env p
  if !satisfiesAnyPodFilters pod request.filters then none
  else if request.detail then some (fillAppInfo store p pod)
  else some { pod with manifest := none }

/-- Lines 383-404: ListPods over the success path of the pod walker, which
visits the given handles in order (an enumeration failure aborts the whole
call and returns no list at all). -/
def ListPods (env : Env) (store : Store) (handles : List PodHandle)
    (request : ListPodsRequest) : List Pod :=
  handles.filterMap (listPodsVisit env store request)

/-- An image record of the store (imagestore.ACIInfo); the fields consumed
by aciInfoToV1AlphaAPIImage. -/
structure ACIInfo where
  blobKey : String
  importTime : Int
  size : Int
  treeStoreSize : Int
  deriving DecidableEq, Repr

/-- Lines 499-534: aciInfoToV1AlphaAPIImage loads and decodes the stored
image manifest (failing the conversion when either step fails, with json
decoding passed as a parameter), then composes the public image view: the
version label defaulting to latest, and the size being the blob size plus
the expanded tree-store size. -/
def aciInfoToV1AlphaAPIImage (store : Store) (parse : String → Option ImageManifest)
    (aciInfo : ACIInfo) : Option Image :=
  match store.getImageManifestJSON aciInfo.blobKey with
  | none => none
  | some manifest =>
    match parse manifest with
    | none => none
    | some im =>
      some
        { baseFormat := { type := ImageType.APPC, version := AppContainerVersion }
          id := aciInfo.blobKey
          name := im.name
          version := if (labelsGet im.labels "version").2 then (labelsGet im.labels "version").1
                     else "latest"
          importTimestamp := aciInfo.importTime
          manifest := some manifest
          size := aciInfo.size + aciInfo.treeStoreSize
          annotations := convertAnnotationsToKeyValue im.annotations
          labels := convertLabelsToKeyValue im.labels }

/-- Go strings.Split with the newline separator, on the character list of
the chunk: every separator occurrence splits, so empty segments appear
between adjacent separators and at the borders. -/
def splitNewline : List Char → List (List Char)
  | [] => [[]]
  | c :: rest =>
    if c = '\n' then [] :: splitNewline rest
    else
      match splitNewline rest with
      | [] => [[c]]
      | seg :: segs => (c :: seg) :: segs

/-- Lines 708-714: split the chunk on newlines and keep the non-empty
segments. -/
def removeEmptyLines (b : String) : List String :=
  ((splitNewline b.data).map fun l => String.mk l).filter fun v => v.length > 0

/-- The observable outcome of one Write call of the log stream adapter:
the batches pushed over the stream (Send is called exactly once per
chunk), the returned byte count, and the returned error. -/
structure WriteOutcome where
  pushes : List (List String)
  n : Nat
  err : Option String
  deriving DecidableEq, Repr

/-- Lines 707-720: LogsStreamWriter.Write pushes the non-empty lines of
the chunk as one message; on a Send failure it returns 0 and the error,
otherwise the full byte length of the chunk and no error.  The subscriber
stream is modelled by the send parameter giving the error outcome of the
one Send call. -/
def logsStreamWriterWrite (send : List String → Option String) (b : String) : WriteOutcome :=
  match send (removeEmptyLines b) with
  | some e => { pushes := [removeEmptyLines b], n := 0, err := some e }
  | none => { pushes := [removeEmptyLines b], n := b.utf8ByteSize, err := none }

/-- v1alpha.ListenEventsRequest; its filter is irrelevant here. -/
structure ListenEventsRequest where
  filter : List KeyValue := []

/-- Lines 726-728: ListenEvents always fails with the literal
not-implemented error, for every request and server stream. -/
def ListenEvents {Server : Type} (_request : ListenEventsRequest) (_server : Server) :
    Except String Unit :=
  Except.error "not implemented yet"

/-- Concrete environment whose json decoding always succeeds with a
manifest carrying one annotation; used to exhibit an Embryo pod with a
readable manifest. -/
def c4env : Env :=
  { unmarshalPodManifest := fun _ => some { apps := [], annotations := [{ name := "k", value := "v" }] }
    cgroupPathByPid := fun _ => none }

/-- Concrete pod handle in Embryo state whose pod manifest file is
readable. -/
def c4handle : PodHandle :=
  { uuid := "u"
    readFile := fun _ => some "raw"
    getState := InternalPodState.Embryo
    nets := []
    getCreationTime := none
    getStartTime := none
    getGCMarkedTime := none
    getPID := none
    getContainerPID1 := none
    isRunning := false
    afterRun := false
    getAppImageManifest := fun _ => none
    getStatusDir := none
    readIntFromFile := fun _ => (0, some FileErr.other) }

/-- Concrete environment whose json decoding always fails. -/
def c4wenv : Env :=
  { unmarshalPodManifest := fun _ => none
    cgroupPathByPid := fun _ => none }

/-- Concrete pod handle in Embryo state whose pod manifest file is
missing. -/
def c4whandle : PodHandle :=
  { uuid := "u"
    readFile := fun _ => none
    getState := InternalPodState.Embryo
    nets := []
    getCreationTime := none
    getStartTime := none
    getGCMarkedTime := none
    getPID := none
    getContainerPID1 := none
    isRunning := false
    afterRun := false
    getAppImageManifest := fun _ => none
    getStatusDir := none
    readIntFromFile := fun _ => (0, some FileErr.other) }

/-- Concrete environment for the ListPods scenario: decodes every manifest
to an empty pod manifest. -/
def c5env : Env :=
  { unmarshalPodManifest := fun _ => some { apps := [], annotations := [] }
    cgroupPathByPid := fun _ => none }

/-- Concrete exited pod handle with a readable manifest file. -/
def c5handle : PodHandle :=
  { uuid := "u"
    readFile := fun _ => some "raw"
    getState := InternalPodState.Exited
    nets := []
    getCreationTime := none
    getStartTime := none
    getGCMarkedTime := none
    getPID := none
    getContainerPID1 := none
    isRunning := false
    afterRun := true
    getAppImageManifest := fun _ => none
    getStatusDir := none
    readIntFromFile := fun _ => (0, some FileErr.other) }

/-- Concrete image store for the ListPods scenario. -/
def c5store : Store :=
  { resolveKey := fun s => (s, true)
    getImageManifestJSON := fun _ => none }

/-- The pod that the concrete detail-less ListPods returns. -/
def c5q : Pod := { getBasicPod c5env c5handle with manifest := none }

/-- Concrete image store whose key resolution always fails, returning the
empty string next to the error. -/
def c6store : Store :=
  { resolveKey := fun _ => ("", false)
    getImageManifestJSON := fun _ => none }

/-- Concrete exited pod handle without a per-app image manifest. -/
def c6handle : PodHandle :=
  { uuid := "u"
    readFile := fun _ => none
    getState := InternalPodState.Exited
    nets := []
    getCreationTime := none
    getStartTime := none
    getGCMarkedTime := none
    getPID := none
    getContainerPID1 := none
    isRunning := false
    afterRun := true
    getAppImageManifest := fun _ => none
    getStatusDir := none
    readIntFromFile := fun _ => (0, some FileErr.other) }

/-- Concrete app whose image id is an unresolved store key. -/
def c6app : App := { name := "a0", image := { id := "sha512-abc" } }

/-- Concrete exited pod snapshot holding that app. -/
def c6pod : Pod := { id := "p", state := PodState.EXITED, apps := [c6app] }

/-- Concrete image store holding one manifest blob. -/
def c9store : Store :=
  { resolveKey := fun s => (s, true)
    getImageManifestJSON := fun _ => some "imbytes" }

/-- Concrete image manifest decoder: the manifest has no version label. -/
def c9parse : String → Option ImageManifest :=
  fun _ => some { name := "example.com/app", labels := [], annotations := [] }

/-- Concrete image record. -/
def c9aci : ACIInfo := { blobKey := "sha512-k", importTime := 5, size := 10, treeStoreSize := 3 }

/-- The image view produced for that record. -/
def c9img : Image :=
  { baseFormat := { type := ImageType.APPC, version := AppContainerVersion }
    id := "sha512-k"
    name := "example.com/app"
    version := "latest"
    importTimestamp := 5
    manifest := some "imbytes"
    size := 13
    annotations := []
    labels := [] }

/-- Concrete per-app image manifest carrying an explicit version label. -/
def c9im2 : ImageManifest :=
  { name := "n2", labels := [{ name := "version", value := "v1" }], annotations := [] }

/-- Concrete exited pod handle whose per-app image manifest is c9im2. -/
def c9handle : PodHandle :=
  { uuid := "u"
    readFile := fun _ => none
    getState := InternalPodState.Exited
    nets := []
    getCreationTime := none
    getStartTime := none
    getGCMarkedTime := none
    getPID := none
    getContainerPID1 := none
    isRunning := false
    afterRun := true
    getAppImageManifest := fun _ => some c9im2
    getStatusDir := none
    readIntFromFile := fun _ => (0, some FileErr.other) }

/-- Concrete app for the version-default scenario. -/
def c9app : App := { name := "a0", image := { id := "sha512-x" } }

/-- Helper characterizing findInKeyValues through the first-match lookup
List.find? of the standard library. -/
theorem findInKeyValues_ok (A : List KeyValue) (k v : String) :
    ((findInKeyValues A k).2 && ((findInKeyValues A k).1 == v)) = true ↔
      (A.find? fun a => a.key == k).map (fun a => a.value) = some v := by
  induction A with
  | nil => simp [findInKeyValues]
  | cons kv rest ih =>
    by_cases h : kv.key = k
    · rw [List.find?_cons_of_pos _ (by simpa using h)]
      simp [findInKeyValues, h]
    · rw [List.find?_cons_of_neg _ (by simpa using h)]
      simpa [findInKeyValues, h] using ih

/-- C2: containsAllKeyValues of an empty requirement list is true, and in
general containsAllKeyValues holds iff for every required pair the first
entry of the candidate list with a matching key carries an equal value. -/
theorem containsAllKeyValues_spec (A R : List KeyValue) :
    containsAllKeyValues A [] = true ∧
    (containsAllKeyValues A R = true ↔
      ∀ kv ∈ R, (A.find? fun a => a.key == kv.key).map (fun a => a.value) = some kv.value) := by
  refine ⟨rfl, ?_⟩
  simp only [containsAllKeyValues, List.all_eq_true]
  constructor
  · intro h kv hkv
    exact (findInKeyValues_ok A kv.key kv.value).mp (h kv hkv)
  · intro h kv hkv
    exact (findInKeyValues_ok A kv.key kv.value).mpr (h kv hkv)

/-- Witness for C2 at concrete inputs: a repeated key in the candidate list
is looked up by its first entry. -/
theorem containsAllKeyValues_spec_witness :
    containsAllKeyValues [⟨"a", "1"⟩, ⟨"a", "2"⟩] [] = true ∧
    (containsAllKeyValues [⟨"a", "1"⟩, ⟨"a", "2"⟩] [⟨"a", "1"⟩] = true ↔
      ∀ kv ∈ [(⟨"a", "1"⟩ : KeyValue)],
        (([⟨"a", "1"⟩, ⟨"a", "2"⟩] : List KeyValue).find? fun a => a.key == kv.key).map
            (fun a => a.value) = some kv.value) :=
  containsAllKeyValues_spec [⟨"a", "1"⟩, ⟨"a", "2"⟩] [⟨"a", "1"⟩]

/-- C1: satisfiesAnyPodFilters is vacuously true on the empty filter list,
and on a non-empty list it holds iff some filter of the list is satisfied. -/
theorem satisfiesAnyPodFilters_spec (pod : Pod) (filters : List PodFilter) :
    satisfiesAnyPodFilters pod [] = true ∧
    (filters ≠ [] →
      (satisfiesAnyPodFilters pod filters = true ↔
        ∃ f ∈ filters, satisfiesPodFilter pod f = true)) := by
  refine ⟨rfl, fun hne => ?_⟩
  unfold satisfiesAnyPodFilters
  cases filters with
  | nil => exact absurd rfl hne
  | cons f fs => simp [List.any_eq_true]

/-- Witness for C1 at a concrete pod and non-empty filter list. -/
theorem satisfiesAnyPodFilters_spec_witness :
    satisfiesAnyPodFilters {} [{}] = true ↔
      ∃ f ∈ [({} : PodFilter)], satisfiesPodFilter {} f = true :=
  (satisfiesAnyPodFilters_spec {} [{}]).2 (by simp)

/-- C3: for a filter with a non-empty PodSubCgroups list, the sub-cgroup
criterion holds iff the pod cgroup is non-empty and is a string prefix of
some candidate path; with an empty pod cgroup the whole filter is never
satisfied. -/
theorem podSubCgroup_spec (pod : Pod) (filter : PodFilter)
    (hne : filter.podSubCgroups ≠ []) :
    (podSubCgroupMatched pod filter = true ↔
      pod.cgroup ≠ "" ∧ ∃ c ∈ filter.podSubCgroups, pod.cgroup.isPrefixOf c = true) ∧
    (pod.cgroup = "" → satisfiesPodFilter pod filter = false) := by
  constructor
  · unfold podSubCgroupMatched
    by_cases hcg : pod.cgroup = ""
    · simp [hcg]
    · simp [hcg, List.any_eq_true]
  · intro hcg
    have hm : podSubCgroupMatched pod filter = false := by
      unfold podSubCgroupMatched
      simp [hcg]
    unfold satisfiesPodFilter
    split_ifs with h1 h2 h3 h4 h5 h6 h7 h8
    · rfl
    · rfl
    · rfl
    · rfl
    · rfl
    · rfl
    · rfl
    · rfl
    · exfalso
      apply h8
      simp [hm]
      exact List.length_pos.mpr hne

/-- Witness for C3 at the spec example: pod cgroup "/a/b" against candidate
paths ["/a/b/init.scope", "/x"], and the empty-cgroup case. -/
theorem podSubCgroup_spec_witness :
    (podSubCgroupMatched { cgroup := "/a/b" } { podSubCgroups := ["/a/b/init.scope", "/x"] } = true ↔
      ({ cgroup := "/a/b" } : Pod).cgroup ≠ "" ∧
        ∃ c ∈ ({ podSubCgroups := ["/a/b/init.scope", "/x"] } : PodFilter).podSubCgroups,
          ({ cgroup := "/a/b" } : Pod).cgroup.isPrefixOf c = true) ∧
    (({ cgroup := "/a/b" } : Pod).cgroup = "" →
      satisfiesPodFilter { cgroup := "/a/b" } { podSubCgroups := ["/a/b/init.scope", "/x"] } = false) :=
  podSubCgroup_spec { cgroup := "/a/b" } { podSubCgroups := ["/a/b/init.scope", "/x"] }
    (by simp)

/-- C7: every chunk written to the log stream adapter produces exactly one
push, carrying the non-empty newline segments of that chunk; a chunk with
no non-empty segment still produces one push of an empty batch.  The spec
example chunk produces the batch of "a" and "b". -/
theorem logsStreamWrite_batches (send : List String → Option String) (b : String) :
    (logsStreamWriterWrite send b).pushes =
      [((splitNewline b.data).map fun l => String.mk l).filter fun v => v.length > 0] ∧
    (logsStreamWriterWrite send "a\n\nb\n").pushes = [["a", "b"]] ∧
    (logsStreamWriterWrite send "\n\n").pushes = [[]] := by
  have hgen : ∀ s : String, (logsStreamWriterWrite send s).pushes = [removeEmptyLines s] := by
    intro s
    unfold logsStreamWriterWrite
    cases h : send (removeEmptyLines s) <;> simp [h]
  refine ⟨?_, ?_, ?_⟩
  · rw [hgen]
    rfl
  · rw [hgen]
    decide
  · rw [hgen]
    decide

/-- Witness for C7 at a concrete subscriber and the spec example chunk. -/
theorem logsStreamWrite_batches_witness :
    (logsStreamWriterWrite (fun _ => none) "a\n\nb\n").pushes = [["a", "b"]] :=
  (logsStreamWrite_batches (fun _ => none) "a\n\nb\n").2.1

/-- C10: when the one push of a chunk succeeds, Write returns the full byte
length of the chunk and no error; when the push fails, Write returns 0 and
that error. -/
theorem logsStreamWrite_result (send : List String → Option String) (b : String) :
    (send (removeEmptyLines b) = none →
      (logsStreamWriterWrite send b).n = b.utf8ByteSize ∧
        (logsStreamWriterWrite send b).err = none) ∧
    (∀ e, send (removeEmptyLines b) = some e →
      (logsStreamWriterWrite send b).n = 0 ∧
        (logsStreamWriterWrite send b).err = some e) := by
  constructor
  · intro h
    simp [logsStreamWriterWrite, h]
  · intro e h
    simp [logsStreamWriterWrite, h]

/-- Witness for C10 at a concrete chunk, once with a succeeding subscriber
and once with a failing one. -/
theorem logsStreamWrite_result_witness :
    ((logsStreamWriterWrite (fun _ => none) "x\n").n = ("x\n" : String).utf8ByteSize ∧
      (logsStreamWriterWrite (fun _ => none) "x\n").err = none) ∧
    ((logsStreamWriterWrite (fun _ => some "boom") "x\n").n = 0 ∧
      (logsStreamWriterWrite (fun _ => some "boom") "x\n").err = some "boom") :=
  ⟨(logsStreamWrite_result (fun _ => none) "x\n").1 rfl,
   (logsStreamWrite_result (fun _ => some "boom") "x\n").2 "boom" rfl⟩

/-- C8: ListenEvents fails with the explicit not-implemented error for
every request and server, and never returns success. -/
theorem listenEvents_spec {Server : Type} (request : ListenEventsRequest) (server : Server) :
    ListenEvents request server = Except.error "not implemented yet" ∧
    ∀ u : Unit, ListenEvents request server ≠ Except.ok u :=
  ⟨rfl, fun _ h => Except.noConfusion h⟩

/-- Witness for C8 at a concrete request and server. -/
theorem listenEvents_spec_witness :
    ListenEvents ({} : ListenEventsRequest) () = Except.error "not implemented yet" :=
  (listenEvents_spec {} ()).1

/-- Helper: the creation-time step leaves the manifest field alone. -/
theorem setCreatedAt_manifest (p : PodHandle) (pod : Pod) :
    (setCreatedAt p pod).manifest = pod.manifest := by
  unfold setCreatedAt
  repeat' split
  all_goals rfl

/-- Helper: the start-time step leaves the manifest field alone. -/
theorem setStartedAt_manifest (p : PodHandle) (pod : Pod) :
    (setStartedAt p pod).manifest = pod.manifest := by
  unfold setStartedAt
  repeat' split
  all_goals rfl

/-- Helper: the gc-time step leaves the manifest field alone. -/
theorem setGcMarkedAt_manifest (p : PodHandle) (pod : Pod) :
    (setGcMarkedAt p pod).manifest = pod.manifest := by
  unfold setGcMarkedAt
  repeat' split
  all_goals rfl

/-- Helper: the pid step leaves the manifest field alone. -/
theorem setPid_manifest (p : PodHandle) (pod : Pod) :
    (setPid p pod).manifest = pod.manifest := by
  unfold setPid
  repeat' split
  all_goals rfl

/-- Helper: the cgroup step leaves the manifest field alone. -/
theorem setCgroup_manifest (env : Env) (p : PodHandle) (pod : Pod) :
    (setCgroup env p pod).manifest = pod.manifest := by
  unfold setCgroup
  repeat' split
  all_goals rfl

/-- Helper: the whole best-effort enrichment leaves the manifest field
alone. -/
theorem getBasicPodRest_manifest (env : Env) (p : PodHandle) (pod : Pod) :
    (getBasicPodRest env p pod).manifest = pod.manifest := by
  unfold getBasicPodRest
  rw [setCgroup_manifest, setPid_manifest, setGcMarkedAt_manifest, setStartedAt_manifest,
    setCreatedAt_manifest]

/-- Helper: a readable, decodable pod manifest file puts its raw bytes into
the snapshot, whatever the pod state. -/
theorem getBasicPod_manifest (env : Env) (p : PodHandle) (m : PodManifest) (data : String)
    (hm : getPodManifest env p = some (m, data)) :
    (getBasicPod env p).manifest = some data := by
  unfold getBasicPod
  rw [hm]
  cases hs : p.getState <;> simp [getBasicPodRest_manifest]

/-- Helper: the detail enrichment never touches the manifest field. -/
theorem fillAppInfo_manifest (store : Store) (p : PodHandle) (v1pod : Pod) :
    (fillAppInfo store p v1pod).manifest = v1pod.manifest := by
  unfold fillAppInfo
  repeat' split
  all_goals rfl

/-- Helper: outside the Undefined and Embryo states the detail enrichment
maps the per-app body over the apps. -/
theorem fillAppInfo_apps (store : Store) (p : PodHandle) (v1pod : Pod)
    (hu : v1pod.state ≠ PodState.UNDEFINED) (he : v1pod.state ≠ PodState.EMBRYO) :
    (fillAppInfo store p v1pod).apps = v1pod.apps.map (fillApp store p) := by
  unfold fillAppInfo
  cases h : v1pod.state <;> simp_all

/-- Helper: the image of an enriched app is the rebuilt image. -/
theorem fillApp_image (store : Store) (p : PodHandle) (app : App) :
    (fillApp store p app).image = fillAppImage store p app := by
  unfold fillApp
  repeat' split
  all_goals simp_all

/-- Helper: the state of an enriched app follows the pod liveness
predicates. -/
theorem fillApp_state (store : Store) (p : PodHandle) (app : App) :
    (fillApp store p app).state =
      (if p.isRunning then AppState.RUNNING
       else if p.afterRun then AppState.EXITED
       else AppState.UNDEFINED) := by
  unfold fillApp
  repeat' split
  all_goals simp_all

/-- Helper: the rebuilt image always carries the string result of the key
resolution, successful or not. -/
theorem fillAppImage_id (store : Store) (p : PodHandle) (app : App) :
    (fillAppImage store p app).id = (store.resolveKey app.image.id).1 := by
  unfold fillAppImage
  repeat' split
  all_goals rfl

/-- C4 counterexample: a pod handle in Embryo state whose manifest file is
readable gets its annotations and manifest bytes populated by getBasicPod,
because the manifest is read before the state switch. -/
theorem getBasicPod_embryo_cex :
    c4handle.getState = InternalPodState.Embryo ∧
    (getBasicPod c4env c4handle).state = PodState.EMBRYO ∧
    (getBasicPod c4env c4handle).annotations = [{ key := "k", value := "v" }] ∧
    (getBasicPod c4env c4handle).annotations ≠ [] ∧
    (getBasicPod c4env c4handle).manifest = some "raw" := by
  decide

/-- C4 (amended): for a pod handle in Embryo state, getBasicPod sets only
id, pid (-1) and state, leaving timestamps, networks and cgroup unset; its
apps, annotations and manifest are moreover empty whenever the pod
manifest read or decode fails. -/
theorem getBasicPod_embryo (env : Env) (p : PodHandle)
    (h : p.getState = InternalPodState.Embryo) :
    (getBasicPod env p).id = p.uuid ∧
    (getBasicPod env p).pid = -1 ∧
    (getBasicPod env p).state = PodState.EMBRYO ∧
    (getBasicPod env p).createdAt = 0 ∧
    (getBasicPod env p).startedAt = 0 ∧
    (getBasicPod env p).gcMarkedAt = 0 ∧
    (getBasicPod env p).networks = [] ∧
    (getBasicPod env p).cgroup = "" ∧
    (getPodManifest env p = none →
      (getBasicPod env p).apps = [] ∧ (getBasicPod env p).annotations = [] ∧
        (getBasicPod env p).manifest = none) := by
  cases hm : getPodManifest env p with
  | none => simp [getBasicPod, h, hm]
  | some md =>
    obtain ⟨m, d⟩ := md
    simp [getBasicPod, h, hm]

/-- Witness for C4 at a concrete Embryo handle with an unreadable
manifest: the snapshot is fully bare. -/
theorem getBasicPod_embryo_witness :
    ((getBasicPod c4wenv c4whandle).id = c4whandle.uuid ∧
      (getBasicPod c4wenv c4whandle).pid = -1 ∧
      (getBasicPod c4wenv c4whandle).state = PodState.EMBRYO ∧
      (getBasicPod c4wenv c4whandle).createdAt = 0 ∧
      (getBasicPod c4wenv c4whandle).startedAt = 0 ∧
      (getBasicPod c4wenv c4whandle).gcMarkedAt = 0 ∧
      (getBasicPod c4wenv c4whandle).networks = [] ∧
      (getBasicPod c4wenv c4whandle).cgroup = "" ∧
      (getPodManifest c4wenv c4whandle = none →
        (getBasicPod c4wenv c4whandle).apps = [] ∧
          (getBasicPod c4wenv c4whandle).annotations = [] ∧
          (getBasicPod c4wenv c4whandle).manifest = none)) ∧
    ((getBasicPod c4wenv c4whandle).apps = [] ∧
      (getBasicPod c4wenv c4whandle).annotations = [] ∧
      (getBasicPod c4wenv c4whandle).manifest = none) :=
  ⟨getBasicPod_embryo c4wenv c4whandle rfl,
   (getBasicPod_embryo c4wenv c4whandle rfl).2.2.2.2.2.2.2.2 rfl⟩

/-- C5: with detail false, every pod of the ListPods result has its
manifest cleared and is otherwise exactly the assembled basic snapshot of
some visited handle; with detail true, every visited handle with a
readable manifest that passes the filters yields a result pod carrying the
manifest bytes. -/
theorem listPods_detail_spec (env : Env) (store : Store) (handles : List PodHandle)
    (filters : List PodFilter) :
    (∀ q ∈ ListPods env store handles { filters := filters, detail := false },
      q.manifest = none ∧
        ∃ p ∈ handles, q = { getBasicPod env p with manifest := none }) ∧
    (∀ p ∈ handles, ∀ m data, getPodManifest env p = some (m, data) →
      satisfiesAnyPodFilters (getBasicPod env p) filters = true →
      ∃ q ∈ ListPods env store handles { filters := filters, detail := true },
        q.manifest = some data) := by
  constructor
  · intro q hq
    obtain ⟨p, hp, hv⟩ := List.mem_filterMap.mp hq
    by_cases hsat : satisfiesAnyPodFilters (getBasicPod env p) filters = true
    · simp [listPodsVisit, hsat] at hv
      refine ⟨?_, p, hp, hv.symm⟩
      rw [← hv]
    · simp [listPodsVisit, hsat] at hv
  · intro p hp m data hm hsat
    refine ⟨fillAppInfo store p (getBasicPod env p), ?_, ?_⟩
    · exact List.mem_filterMap.mpr ⟨p, hp, by simp [listPodsVisit, hsat]⟩
    · rw [fillAppInfo_manifest, getBasicPod_manifest env p m data hm]

/-- Witness for C5 at one concrete exited handle with readable manifest
bytes, once without and once with the detail flag. -/
theorem listPods_detail_spec_witness :
    (c5q.manifest = none ∧
      ∃ p ∈ [c5handle], c5q = { getBasicPod c5env p with manifest := none }) ∧
    (∃ q ∈ ListPods c5env c5store [c5handle] { filters := [], detail := true },
      q.manifest = some "raw") :=
  ⟨(listPods_detail_spec c5env c5store [c5handle] []).1 c5q (by decide),
   (listPods_detail_spec c5env c5store [c5handle] []).2 c5handle (by simp)
     { apps := [], annotations := [] } "raw" rfl rfl⟩

/-- C6 counterexample: an app whose image id fails to resolve does not keep
the original unresolved id: the enrichment overwrites it with the string
returned by the failed resolution, here the empty string. -/
theorem fillAppInfo_resolve_cex :
    (c6pod.apps.map fun a => a.image.id) = ["sha512-abc"] ∧
    (c6store.resolveKey "sha512-abc").2 = false ∧
    ((fillAppInfo c6store c6handle c6pod).apps.map fun a => a.image.id) = [""] := by
  decide

/-- C6 (amended): during detail enrichment, an app whose image id fails to
resolve is still enriched (its state is set from the pod liveness, and its
image name and version are still filled from the per-app image manifest
when obtainable), but its image id is set to the string returned by the
failed resolution instead of keeping the original unresolved id. -/
theorem fillAppInfo_resolve_spec (store : Store) (p : PodHandle) (pod : Pod)
    (hu : pod.state ≠ PodState.UNDEFINED) (he : pod.state ≠ PodState.EMBRYO)
    (app : App) (happ : app ∈ pod.apps)
    (_hfail : (store.resolveKey app.image.id).2 = false) :
    ∃ a ∈ (fillAppInfo store p pod).apps,
      a.image.id = (store.resolveKey app.image.id).1 ∧
      a.state = (if p.isRunning then AppState.RUNNING
                 else if p.afterRun then AppState.EXITED
                 else AppState.UNDEFINED) ∧
      (∀ im, p.getAppImageManifest app.name = some im →
        a.image.name = im.name ∧
        a.image.version = (if (labelsGet im.labels "version").2
                           then (labelsGet im.labels "version").1 else "latest")) := by
  refine ⟨fillApp store p app, ?_, ?_, fillApp_state store p app, ?_⟩
  · rw [fillAppInfo_apps store p pod hu he]
    exact List.mem_map_of_mem _ happ
  · rw [fillApp_image, fillAppImage_id]
  · intro im him
    rw [fillApp_image]
    unfold fillAppImage
    simp [him]

/-- Witness for C6 at the concrete failing store: the surviving app facts,
with every hypothesis discharged by evaluation. -/
theorem fillAppInfo_resolve_spec_witness :
    ∃ a ∈ (fillAppInfo c6store c6handle c6pod).apps,
      a.image.id = (c6store.resolveKey c6app.image.id).1 ∧
      a.state = (if c6handle.isRunning then AppState.RUNNING
                 else if c6handle.afterRun then AppState.EXITED
                 else AppState.UNDEFINED) ∧
      (∀ im, c6handle.getAppImageManifest c6app.name = some im →
        a.image.name = im.name ∧
        a.image.version = (if (labelsGet im.labels "version").2
                           then (labelsGet im.labels "version").1 else "latest")) :=
  fillAppInfo_resolve_spec c6store c6handle c6pod (by decide) (by decide) c6app (by decide)
    (by decide)

/-- C9: a successfully converted image view reports the manifest version
label, defaulting to latest when the label is absent, and its size is the
blob size plus the tree-store size; the per-app image version of the
detail enrichment uses the same default. -/
theorem aciInfoToImage_spec (store : Store) (parse : String → Option ImageManifest)
    (aciInfo : ACIInfo) (img : Image)
    (h : aciInfoToV1AlphaAPIImage store parse aciInfo = some img) :
    img.size = aciInfo.size + aciInfo.treeStoreSize ∧
    (∃ data im, store.getImageManifestJSON aciInfo.blobKey = some data ∧
      parse data = some im ∧
      img.version = (if (labelsGet im.labels "version").2
                     then (labelsGet im.labels "version").1 else "latest")) ∧
    (∀ (p : PodHandle) (app : App) (im2 : ImageManifest),
      p.getAppImageManifest app.name = some im2 →
      (fillApp store p app).image.version =
        (if (labelsGet im2.labels "version").2
         then (labelsGet im2.labels "version").1 else "latest")) := by
  have hfill : ∀ (p : PodHandle) (app : App) (im2 : ImageManifest),
      p.getAppImageManifest app.name = some im2 →
      (fillApp store p app).image.version =
        (if (labelsGet im2.labels "version").2
         then (labelsGet im2.labels "version").1 else "latest") := by
    intro p app im2 h2
    rw [fillApp_image]
    unfold fillAppImage
    simp [h2]
  cases hk : store.getImageManifestJSON aciInfo.blobKey with
  | none => simp [aciInfoToV1AlphaAPIImage, hk] at h
  | some data =>
    cases hp : parse data with
    | none => simp [aciInfoToV1AlphaAPIImage, hk, hp] at h
    | some im =>
      simp [aciInfoToV1AlphaAPIImage, hk, hp] at h
      refine ⟨?_, ⟨data, im, rfl, hp, ?_⟩, hfill⟩
      · rw [← h]
      · rw [← h]

/-- Witness for C9 at a concrete record whose manifest has no version
label, and a concrete per-app manifest carrying one. -/
theorem aciInfoToImage_spec_witness :
    (c9img.size = c9aci.size + c9aci.treeStoreSize ∧
      (∃ data im, c9store.getImageManifestJSON c9aci.blobKey = some data ∧
        c9parse data = some im ∧
        c9img.version = (if (labelsGet im.labels "version").2
                         then (labelsGet im.labels "version").1 else "latest"))) ∧
    (fillApp c9store c9handle c9app).image.version =
      (if (labelsGet c9im2.labels "version").2
       then (labelsGet c9im2.labels "version").1 else "latest") :=
  ⟨⟨(aciInfoToImage_spec c9store c9parse c9aci c9img rfl).1,
    (aciInfoToImage_spec c9store c9parse c9aci c9img rfl).2.1⟩,
   (aciInfoToImage_spec c9store c9parse c9aci c9img rfl).2.2 c9handle c9app c9im2 rfl⟩

end Rkt
